import Mathlib

/-
Verification of the Cardea dashboard's client-side identity resolution and
session lifecycle manager.

The development shallowly embeds:
 - the auth utilities module (isAzureHosted, getCurrentUser, logout,
   getDisplayName), which implements the three-step resolution cascade over
   the browser's localStorage keys cardea_auth_token / cardea_user /
   cardea_dev_auth / cardea_dev_provider / cardea_dev_user;
 - the AuthContext session context (login, loginWithMicrosoft,
   checkExistingSession, MSAL set-up), which persists under the distinct
   localStorage keys user / access_token;
 - the RegisterPage OTP input handlers (handleOtpPaste, handleOtpKeyDown).

Modelling conventions:
 - localStorage is the Store structure; getItem returning null is none.
 - JavaScript string truthiness (null and the empty string are falsy) is
   isTruthyStr; the a-or-b defaulting idiom (x || d) is jsOrD / jsOrOpt.
 - JSON.parse applied to a stored string is abstracted by the two functions
   parseUser / parseDevUser carried in Env: a result of none models a parse
   that throws (or, where that throw is caught, a malformed record).  The
   field projections performed by the source on the parsed object are folded
   into the record types LocalUser / DevUser, whose fields are Option String
   because a missing JSON field reads back as undefined.
 - network outcomes (the managed who-am-I call, the login and token-exchange
   endpoints, the MSAL popup) are inputs, one constructor per observable
   outcome the source distinguishes.
 - a JavaScript exception escaping a function is the explicit .thrown result;
   exceptions the source catches never surface, matching the try/catch
   structure of the code.
-/

/-- JavaScript truthiness of a possibly-null string: null and "" are falsy. -/
def isTruthyStr : Option String → Bool
  | none => false
  | some s => decide (s ≠ "")

/-- The JavaScript defaulting idiom (x || d) for a possibly-undefined string
against a definite default. -/
def jsOrD : Option String → String → String
  | none, d => d
  | some s, d => if s = "" then d else s

/-- The JavaScript defaulting idiom (x || y) where both operands may be
undefined. -/
def jsOrOpt : Option String → Option String → Option String
  | none, b => b
  | some s, b => if s = "" then b else some s

/-- Collapse a possibly-undefined string to none unless it is truthy. -/
def jsStr : Option String → Option String
  | none => none
  | some s => if s = "" then none else some s

/-- The source's charAt(0).toUpperCase() + slice(1) idiom. -/
def jsCapitalize (s : String) : String :=
  match s.toList with
  | [] => ""
  | c :: rest => String.mk (c.toUpper :: rest)

/-- Lookup in an association list read as a JavaScript object: the last
binding of a key wins, as with repeated assignments acc[k] = v. -/
def objLookup (l : List (String × String)) (k : String) : Option String :=
  (l.reverse.find? (fun p => p.1 == k)).map (fun p => p.2)

/-- Read a key out of an optional claims object. -/
def claimsGet (c : Option (List (String × String))) (k : String) : Option String :=
  c.bind (fun l => objLookup l k)

/-- Build the one-key claims object the source writes; a binding whose value
is undefined is observationally absent, so it is dropped.  An empty-string
value is kept: the source's later truthiness checks see it as falsy. -/
def mkClaim (k : String) (v : Option String) : List (String × String) :=
  match v with
  | none => []
  | some s => [(k, s)]

/-- JavaScript String.prototype.includes. -/
def jsIncludes (s sub : String) : Bool := decide (sub.toList <:+: s.toList)

/-- JavaScript String.prototype.endsWith. -/
def jsEndsWith (s sub : String) : Bool := decide (sub.toList <:+ s.toList)

/-- The object JSON.parse yields for the cardea_user record, seen through the
field reads the source performs (id, email, full_name). -/
structure LocalUser where
  id : Option String
  email : Option String
  full_name : Option String
deriving Repr, DecidableEq

/-- The object JSON.parse yields for the cardea_dev_user record, seen through
the field reads the source performs (name, email). -/
structure DevUser where
  name : Option String
  email : Option String
deriving Repr, DecidableEq

/-- The clientPrincipal object of the managed gateway's who-am-I response.
Its claims array, reduced by the source to an object, is modelled as the
association list read with last-binding-wins objLookup. -/
structure ClientPrincipal where
  userId : String
  userDetails : String
  userRoles : Option (List String)
  identityProvider : String
  claims : Option (List (String × String))
deriving Repr, DecidableEq

/-- The UserInfo record getCurrentUser returns.  userDetails is optional
because the local path copies a possibly-undefined parsed email into it. -/
structure UserInfo where
  userId : String
  userDetails : Option String
  userRoles : List String
  identityProvider : String
  claims : Option (List (String × String))
deriving Repr, DecidableEq

/-- Outcomes of the managed who-am-I fetch that the source distinguishes:
a rejected fetch, a non-2xx response, a 2xx response with a null principal,
and a 2xx response carrying a principal. -/
inductive ManagedOutcome where
  | netError
  | notOk
  | okNoPrincipal
  | okPrincipal (p : ClientPrincipal)
deriving Repr, DecidableEq

/-- The User record the AuthContext stores (stringified) under the user key. -/
structure CtxUser where
  id : String
  email : String
  name : String
  provider : String
deriving Repr, DecidableEq

/-- The localStorage keys this subsystem touches.  The user slot holds the
JSON.stringify of a CtxUser and is modelled structurally since the embedded
code only ever round-trips it. -/
structure Store where
  cardea_auth_token : Option String
  cardea_user : Option String
  cardea_dev_auth : Option String
  cardea_dev_provider : Option String
  cardea_dev_user : Option String
  cardea_onboarding_done : Option String
  user : Option CtxUser
  access_token : Option String
deriving Repr, DecidableEq

/-- A browser profile with nothing stored. -/
def Store.empty : Store := ⟨none, none, none, none, none, none, none, none⟩

/-- Ambient inputs of a resolution pass: whether a window object exists (it
always does in the browser), the window's hostname, the managed gateway's
response, and the JSON.parse behaviour on the two raw stored records. -/
structure Env where
  windowDefined : Bool
  hostname : String
  managed : ManagedOutcome
  parseUser : String → Option LocalUser
  parseDevUser : String → Option DevUser

/-- The hosting test: hostname includes azurestaticapps.net, includes cardea,
or ends with .azurewebsites.net (false when no window object exists). -/
def isAzureHosted (windowDefined : Bool) (hostname : String) : Bool :=
  if !windowDefined then false
  else
    jsIncludes hostname "azurestaticapps.net" ||
    jsIncludes hostname "cardea" ||
    jsEndsWith hostname ".azurewebsites.net"

/-- Mapping of a managed clientPrincipal to UserInfo: userRoles defaults to
the singleton authenticated role only when absent (a present empty array is
truthy in JavaScript and is kept). -/
def mapPrincipal (p : ClientPrincipal) : UserInfo :=
  { userId := p.userId
    userDetails := some p.userDetails
    userRoles := p.userRoles.getD ["authenticated"]
    identityProvider := p.identityProvider
    claims := p.claims }

/-- Mapping of a parsed local user record to UserInfo (STRATEGY 2). -/
def localIdentity (u : LocalUser) : UserInfo :=
  { userId := jsOrD u.id "local-user"
    userDetails := u.email
    userRoles := ["authenticated"]
    identityProvider := "local"
    claims := some (mkClaim "name" (jsOrOpt u.full_name u.email)) }

/-- Mapping of a parsed dev user record to UserInfo (STRATEGY 3). -/
def devIdentity (d : DevUser) : UserInfo :=
  { userId := "dev-user-001"
    userDetails := some (jsOrD d.email "dev@cardea.local")
    userRoles := ["authenticated", "admin"]
    identityProvider := "dev"
    claims := some (mkClaim "name" (some (jsOrD d.name "Local User"))) }

/-- Observable outcome of getCurrentUser: either a normal return or an
uncaught JavaScript exception escaping the call. -/
inductive ResolveResult where
  | thrown
  | value (u : Option UserInfo)
deriving Repr, DecidableEq

/-- Full observable effect of one getCurrentUser call: its outcome, the
store it leaves behind, whether it fetched the managed who-am-I endpoint,
and whether it read the developer-bypass keys. -/
structure ResolveOut where
  result : ResolveResult
  store : Store
  fetchedManaged : Bool
  checkedDevBypass : Bool
deriving Repr, DecidableEq

/-- Outcome of STRATEGY 3 of getCurrentUser (local dev auth).  The
JSON.parse of the dev user record is not wrapped in a try/catch in the
source, so a malformed record is an uncaught throw. -/
def step3DevResult (env : Env) (st : Store) : ResolveResult :=
  if !(isAzureHosted env.windowDefined env.hostname) then
    if st.cardea_dev_auth = some "true" then
      if isTruthyStr st.cardea_dev_user then
        match env.parseDevUser (st.cardea_dev_user.getD "") with
        | some d => .value (some (devIdentity d))
        | none => .thrown
      else .value none
    else .value none
  else .value none

/-- STRATEGY 3 of getCurrentUser with its effects: it never writes the
store, and it reads the developer-bypass keys exactly when the hostname is
not managed. -/
def step3Dev (env : Env) (st : Store) (fetched : Bool) : ResolveOut :=
  ⟨step3DevResult env st, st, fetched,
   !(isAzureHosted env.windowDefined env.hostname)⟩

/-- Removal of the two local-credential keys, the self-heal the source
performs when the stored user record fails to parse. -/
def clearLocalCreds (st : Store) : Store :=
  { st with cardea_auth_token := none, cardea_user := none }

/-- STRATEGY 2 of getCurrentUser (email/password localStorage session).
A parse failure is caught: the two keys are cleared and resolution falls
through to STRATEGY 3 on the cleared store. -/
def step2Local (env : Env) (st : Store) (fetched : Bool) : ResolveOut :=
  if isTruthyStr st.cardea_auth_token && isTruthyStr st.cardea_user then
    match env.parseUser (st.cardea_user.getD "") with
    | some u => ⟨.value (some (localIdentity u)), st, fetched, false⟩
    | none => step3Dev env (clearLocalCreds st) fetched
  else step3Dev env st fetched

/-- The hybrid resolution cascade.  STRATEGY 1 (managed gateway) runs only
under a managed hostname; every failure there is caught and falls through. -/
def getCurrentUser (env : Env) (st : Store) : ResolveOut :=
  if isAzureHosted env.windowDefined env.hostname then
    match env.managed with
    | .okPrincipal p => ⟨.value (some (mapPrincipal p)), st, true, false⟩
    | _ => step2Local env st true
  else step2Local env st false

/-- Navigation a logout call performs.  The source builds the full redirect
URL from the origin and encodeURIComponent; no claim depends on that string,
so only the kind of navigation and the target path are recorded. -/
inductive NavAction where
  | managedLogoutRedirect (postLogoutPath : String)
  | navigate (path : String)
deriving Repr, DecidableEq

/-- The unconditional clearing logout performs before branching: the five
cardea auth keys are removed; nothing else is touched. -/
def logoutClearedStore (st : Store) : Store :=
  { st with cardea_auth_token := none, cardea_user := none,
            cardea_dev_auth := none, cardea_dev_provider := none,
            cardea_dev_user := none }

/-- The logout of the auth utilities module: clear the five keys, then
redirect to the managed gateway's logout URL when the hostname is managed,
otherwise navigate locally to the redirect path. -/
def logout (env : Env) (st : Store) (redirectPath : String) : Store × NavAction :=
  (logoutClearedStore st,
   if isAzureHosted env.windowDefined env.hostname then
     NavAction.managedLogoutRedirect redirectPath
   else
     NavAction.navigate redirectPath)

/-- The display-name resolution of the auth utilities module. -/
def getDisplayName (user : Option UserInfo) : String :=
  match user with
  | none => "Guest"
  | some u =>
    match jsStr (claimsGet u.claims "name") with
    | some s => s
    | none =>
      match jsStr (claimsGet u.claims "preferred_username") with
      | some s => s
      | none =>
        match jsStr u.userDetails with
        | some details => jsCapitalize ((details.splitOn "@").headD "")
        | none => "User"

/-- The user object the backend's login endpoint returns. -/
structure BackendUserRec where
  id : String
  email : String
  full_name : Option String
deriving Repr, DecidableEq

/-- Outcomes of the POST to the backend login endpoint that the AuthContext
distinguishes: a rejected fetch, a non-2xx response with an optional detail
message, or a 2xx response carrying a bearer token and a user record. -/
inductive LoginBackend where
  | netError
  | notOk (detail : Option String)
  | ok (access_token : String) (u : BackendUserRec)
deriving Repr, DecidableEq

/-- Observable outcome of the AuthContext's email/password login: the
network error rethrown, the backend's message rethrown, or success. -/
inductive CtxLoginResult where
  | networkFailure
  | failed (msg : String)
  | success (u : CtxUser)
deriving Repr, DecidableEq

/-- The AuthContext's email/password login.  On success it persists the
stringified user under the user key and the bearer token under the
access_token key; on any failure the store is untouched. -/
def login (resp : LoginBackend) (st : Store) : CtxLoginResult × Store :=
  match resp with
  | .netError => (.networkFailure, st)
  | .notOk detail => (.failed (jsOrD detail "Login failed"), st)
  | .ok tok u =>
    let userData : CtxUser := ⟨u.id, u.email, jsOrD u.full_name u.email, "traditional"⟩
    (.success userData, { st with user := some userData, access_token := some tok })

/-- An MSAL account object, seen through the field reads the source makes. -/
structure MsalAccount where
  localAccountId : String
  username : String
  name : Option String
deriving Repr, DecidableEq

/-- The AuthContext's mount-time session check: the stored user wins when the
stored token is truthy (the stored user string, a stringified object, is
always truthy when present); otherwise the first MSAL cached account is used
when an MSAL instance exists. -/
def checkExistingSession (msal : Option (List MsalAccount)) (st : Store) : Option CtxUser :=
  if st.user.isSome && isTruthyStr st.access_token then st.user
  else
    match msal with
    | some accounts =>
      match accounts with
      | a :: _ => some ⟨a.localAccountId, a.username, jsOrD a.name a.username, "azure"⟩
      | [] => none
    | none => none

/-- Whether constructing and initialising the MSAL library succeeds or
throws. -/
inductive MsalCtor where
  | ok
  | throws
deriving Repr, DecidableEq

/-- MSAL set-up, modelling initializeMsal of the AuthContext: the
construction is wrapped in a try/catch, so a throwing constructor leaves the
module-level instance null instead of propagating; with Azure auth disabled
no construction is attempted.  The total return type records that the catch
swallows the failure. -/
def initMsal (azureEnabled : Bool) (ctor : MsalCtor) : Option Unit :=
  if azureEnabled then
    match ctor with
    | .ok => some ()
    | .throws => none
  else none

/-- The successful result of the MSAL login popup: the identity token and
the signed-in account. -/
structure PopupResult where
  idToken : String
  account : MsalAccount
deriving Repr, DecidableEq

/-- Outcome of the MSAL login popup. -/
inductive PopupOutcome where
  | ok (r : PopupResult)
  | rejected
deriving Repr, DecidableEq

/-- Outcomes of the POST of the identity token to the backend exchange
endpoint. -/
inductive ExchangeResp where
  | netError
  | notOk (detail : Option String)
  | ok (access_token : String)
deriving Repr, DecidableEq

/-- Observable outcome of loginWithMicrosoft, one constructor per throw site
of the source plus success. -/
inductive MsLoginResult where
  | notConfiguredError
  | popupError
  | exchangeNetworkError
  | backendRejected (msg : String)
  | success (u : CtxUser)
deriving Repr, DecidableEq

/-- Full observable effect of one loginWithMicrosoft call. -/
structure MsLoginOut where
  result : MsLoginResult
  store : Store
  popupAttempted : Bool
deriving Repr, DecidableEq

/-- The AuthContext's Microsoft popup login.  With a null MSAL instance it
throws before any popup; a rejected popup propagates; a backend rejection of
the identity token throws after the popup; only full success persists the
user and the backend-issued bearer token. -/
def loginWithMicrosoft (msalInstance : Option Unit) (popup : PopupOutcome)
    (exchange : ExchangeResp) (st : Store) : MsLoginOut :=
  match msalInstance with
  | none => ⟨.notConfiguredError, st, false⟩
  | some _ =>
    match popup with
    | .rejected => ⟨.popupError, st, true⟩
    | .ok r =>
      match exchange with
      | .netError => ⟨.exchangeNetworkError, st, true⟩
      | .notOk detail => ⟨.backendRejected (jsOrD detail "Backend authentication failed"), st, true⟩
      | .ok tok =>
        let userData : CtxUser :=
          ⟨r.account.localAccountId, r.account.username,
           jsOrD r.account.name r.account.username, "azure"⟩
        ⟨.success userData, { st with user := some userData, access_token := some tok }, true⟩

/-- The RegisterPage OTP paste handler: the clipboard text is sliced to six
characters, rejected unless it is one or more digits, and otherwise written
one character per slot starting at slot zero. -/
def handleOtpPaste (otp : List String) (clip : String) : List String :=
  let pasted := clip.toList.take 6
  if pasted.length > 0 && pasted.all Char.isDigit then
    (pasted.foldl (fun acc c => (acc.1.set acc.2 c.toString, acc.2 + 1))
      ((otp, 0) : List String × Nat)).1
  else otp

/-- The RegisterPage OTP keydown handler: Backspace on a falsy slot with a
predecessor focuses the predecessor; the returned index is the slot focused,
none when no focus move happens. -/
def handleOtpKeyDown (otp : List String) (index : Nat) (key : String) : Option Nat :=
  if key = "Backspace" ∧ otp.getD index "" = "" ∧ 0 < index then some (index - 1)
  else none

/-- The managed principal available to step 1 of the spec's cascade. -/
def specManagedPrincipal (env : Env) : Option ClientPrincipal :=
  match env.managed with
  | .okPrincipal p => some p
  | _ => none

/-- Step 2 of the spec's cascade: the stored local credentials, available
only when both keys are present with non-empty values and the record parses. -/
def specStep2Val (env : Env) (st : Store) : Option LocalUser :=
  if isTruthyStr st.cardea_auth_token && isTruthyStr st.cardea_user then
    env.parseUser (st.cardea_user.getD "")
  else none

/-- Step 3 of the spec's cascade: the developer bypass, available only
outside managed hosting when the flag is set and a simulated-user record is
stored.  A malformed record yields nothing here; the comparison theorems
assume well-formedness of this one record, since the source throws on it. -/
def specStep3 (env : Env) (st : Store) : Option UserInfo :=
  if isAzureHosted env.windowDefined env.hostname then none
  else if st.cardea_dev_auth = some "true" then
    if isTruthyStr st.cardea_dev_user then
      match env.parseDevUser (st.cardea_dev_user.getD "") with
      | some d => some (devIdentity d)
      | none => none
    else none
  else none

/-- The resolution cascade transcribed from the specification's own words
(section 4.1): the highest-priority present source wins, the managed gateway
is consulted only under managed hosting, the developer bypass only outside
it, and null results when no source is present.  This definition follows the
spec, not the source; the theorems compare getCurrentUser against it. -/
def specResolve (env : Env) (st : Store) : Option UserInfo :=
  match (if isAzureHosted env.windowDefined env.hostname
         then specManagedPrincipal env else none) with
  | some p => some (mapPrincipal p)
  | none =>
    match specStep2Val env st with
    | some u => some (localIdentity u)
    | none => specStep3 env st

/-- The literal stored user record of the spec's concrete scenario. -/
def localUserJson : String :=
  "\x7b\"id\":\"1\",\"email\":\"a@b.com\",\"full_name\":\"A B\"\x7d"

/-- The parsed form of localUserJson. -/
def localUserRec : LocalUser := ⟨some "1", some "a@b.com", some "A B"⟩

/-- A JSON.parse behaviour that parses exactly the two concrete records the
scenarios store: the user record above and a small dev record. -/
def concreteParseUser : String → Option LocalUser :=
  fun s => if s = localUserJson then some localUserRec else none

/-- Scenario: managed hostname, who-am-I returns a principal, while a stale
local token and record are also stored and a well-formed dev record exists. -/
def C1wEnv : Env :=
  ⟨true, "app.azurestaticapps.net",
   .okPrincipal ⟨"u1", "x@y.com", some ["authenticated"], "aad", none⟩,
   concreteParseUser, fun _ => some ⟨some "Local User", some "dev@x"⟩⟩

def C1wStore : Store :=
  { Store.empty with cardea_auth_token := some "stale",
                     cardea_user := some localUserJson,
                     cardea_dev_user := some "devrec" }

/-- Scenario for a logout check: managed hostname, no principal afterwards. -/
def C2wEnv : Env :=
  ⟨true, "app.cardea.net", .okNoPrincipal, concreteParseUser, fun _ => none⟩

def C2wStore : Store :=
  { Store.empty with cardea_auth_token := some "abc",
                     cardea_user := some localUserJson,
                     cardea_onboarding_done := some "true" }

/-- Scenario: managed hostname (contains cardea) whose who-am-I has no
principal, with a valid local credential pair stored, so the resolved
identity is a local one. -/
def C3xEnv : Env :=
  ⟨true, "cardea.example.com", .okNoPrincipal, concreteParseUser, fun _ => none⟩

def C3xStore : Store :=
  { Store.empty with cardea_auth_token := some "abc",
                     cardea_user := some localUserJson }

/-- A local-development environment (hostname not managed). -/
def C3wEnv : Env := ⟨true, "localhost", .netError, fun _ => none, fun _ => none⟩

/-- Scenario: local bearer token present and the user-record key holding the
empty string, which is malformed JSON (JSON.parse throws on it). -/
def C4xEnv : Env := ⟨true, "localhost", .netError, fun _ => none, fun _ => none⟩

def C4xStore : Store :=
  { Store.empty with cardea_auth_token := some "abc", cardea_user := some "" }

def C4wEnv : Env := ⟨true, "localhost", .netError, fun _ => none, fun _ => none⟩

def C4wStore : Store :=
  { Store.empty with cardea_auth_token := some "abc",
                     cardea_user := some "not-json" }

/-- Scenario: developer bypass armed with a malformed simulated-user record
on a non-managed hostname. -/
def C5xEnv : Env := ⟨true, "localhost", .netError, fun _ => none, fun _ => none⟩

def C5xStore : Store :=
  { Store.empty with cardea_dev_auth := some "true",
                     cardea_dev_user := some "not-json" }

def C5wEnv : Env :=
  ⟨true, "localhost", .netError, fun _ => none,
   fun _ => some ⟨some "Local User", some "dev@cardea.local"⟩⟩

def C5wStore : Store :=
  { Store.empty with cardea_dev_auth := some "true",
                     cardea_dev_user := some "devrec" }

/-- A successful backend login response for the concrete record. -/
def C6xResp : LoginBackend := .ok "tok" ⟨"1", "a@b.com", some "A B"⟩

def C6xEnv : Env := ⟨true, "localhost", .netError, fun _ => none, fun _ => none⟩

def C8wEnv : Env :=
  ⟨true, "localhost", .netError, concreteParseUser, fun _ => none⟩

def C8wStore : Store :=
  { Store.empty with cardea_auth_token := some "abc",
                     cardea_user := some localUserJson }

/-- A hostname that merely contains cardea, as a local dev host might. -/
def C10wEnv : Env :=
  ⟨true, "cardea.localdev", .okNoPrincipal, fun _ => none, fun _ => none⟩

lemma isTruthyStr_some_iff {s : String} : isTruthyStr (some s) = true ↔ s ≠ "" := by
  simp [isTruthyStr]

lemma step3Dev_result_eq_spec (env : Env) (st : Store) (f : Bool)
    (hdev : ∀ s, st.cardea_dev_user = some s → s ≠ "" → (env.parseDevUser s).isSome) :
    (step3Dev env st f).result = .value (specStep3 env st) := by
  show step3DevResult env st = .value (specStep3 env st)
  unfold step3DevResult specStep3
  by_cases hA : isAzureHosted env.windowDefined env.hostname
  · simp [hA]
  · simp only [hA, Bool.not_false, if_true, if_false, Bool.false_eq_true]
    by_cases hflag : st.cardea_dev_auth = some "true"
    · simp only [hflag, if_true, if_pos]
      cases hdu : st.cardea_dev_user with
      | none => simp [isTruthyStr]
      | some s =>
        by_cases hs : s = ""
        · simp [isTruthyStr, hs]
        · have hsome := hdev s hdu hs
          rcases Option.isSome_iff_exists.mp hsome with ⟨d, hd⟩
          simp [isTruthyStr, hs, hd]
    · simp [hflag]

lemma step2Local_result_eq_spec (env : Env) (st : Store) (f : Bool)
    (hdev : ∀ s, st.cardea_dev_user = some s → s ≠ "" → (env.parseDevUser s).isSome) :
    (step2Local env st f).result =
      .value (match specStep2Val env st with
              | some u => some (localIdentity u)
              | none => specStep3 env st) := by
  unfold step2Local specStep2Val
  by_cases hg : (isTruthyStr st.cardea_auth_token && isTruthyStr st.cardea_user) = true
  · simp only [hg, if_true]
    cases hp : env.parseUser (st.cardea_user.getD "") with
    | some u => simp
    | none =>
      have hsame : specStep3 env (clearLocalCreds st) = specStep3 env st := rfl
      rw [step3Dev_result_eq_spec env (clearLocalCreds st) f
        (fun s hs hne => hdev s hs hne), hsame]
  · simp only [hg, if_false, Bool.false_eq_true]
    exact step3Dev_result_eq_spec env st f hdev

lemma getCurrentUser_result_eq_spec (env : Env) (st : Store)
    (hdev : ∀ s, st.cardea_dev_user = some s → s ≠ "" → (env.parseDevUser s).isSome) :
    (getCurrentUser env st).result = .value (specResolve env st) := by
  unfold getCurrentUser specResolve specManagedPrincipal
  by_cases hA : isAzureHosted env.windowDefined env.hostname
  · simp only [hA, if_true]
    cases hm : env.managed with
    | okPrincipal p => simp
    | netError => simpa using step2Local_result_eq_spec env st true hdev
    | notOk => simpa using step2Local_result_eq_spec env st true hdev
    | okNoPrincipal => simpa using step2Local_result_eq_spec env st true hdev
  · simp only [hA, if_false, Bool.false_eq_true]
    simpa using step2Local_result_eq_spec env st false hdev

lemma resolve_cleared (env2 : Env) (st : Store)
    (hnop : ∀ p, env2.managed ≠ .okPrincipal p) :
    (getCurrentUser env2 (logoutClearedStore st)).result = .value none := by
  have h2 : ∀ f, (step2Local env2 (logoutClearedStore st) f).result = .value none := by
    intro f
    unfold step2Local step3Dev step3DevResult logoutClearedStore
    simp [isTruthyStr]
  unfold getCurrentUser
  by_cases hA : isAzureHosted env2.windowDefined env2.hostname
  · simp only [hA, if_true]
    cases hm : env2.managed with
    | okPrincipal p => exact absurd hm (hnop p)
    | netError => exact h2 true
    | notOk => exact h2 true
    | okNoPrincipal => exact h2 true
  · simp only [hA, if_false, Bool.false_eq_true]
    exact h2 false

lemma step2Local_fetched (env : Env) (st : Store) (f : Bool) :
    (step2Local env st f).fetchedManaged = f := by
  unfold step2Local step3Dev
  split
  · split <;> rfl
  · rfl

lemma step2Local_checkedDev (env : Env) (st : Store) (f : Bool)
    (hA : isAzureHosted env.windowDefined env.hostname = true) :
    (step2Local env st f).checkedDevBypass = false := by
  unfold step2Local step3Dev
  split
  · split
    · rfl
    · simp [hA]
  · simp [hA]

lemma isAzureHosted_eq_true_iff (h : String) :
    isAzureHosted true h = true ↔
      ("azurestaticapps.net".toList <:+: h.toList ∨
       "cardea".toList <:+: h.toList ∨
       ".azurewebsites.net".toList <:+ h.toList) := by
  simp [isAzureHosted, jsIncludes, jsEndsWith, or_assoc]

/-- C1: for every combination of store and environment state, getCurrentUser
returns exactly what the spec's fixed-priority cascade prescribes — the
managed gateway first (only under a managed hostname), then the stored local
credentials, then the developer bypass (only under a non-managed hostname),
and null when no source is present; in particular a present managed
principal wins over a stale local token.  The hypothesis asks any stored
developer-bypass record to be well formed, since the source's step 3 parses
it without a catch. -/
theorem claim_C1_cascade_priority (env : Env) (st : Store)
    (hdev : ∀ s, st.cardea_dev_user = some s → s ≠ "" → (env.parseDevUser s).isSome) :
    (getCurrentUser env st).result = .value (specResolve env st) :=
  getCurrentUser_result_eq_spec env st hdev

/-- C1 witness: the managed principal wins over the stale local token in the
concrete scenario C1wEnv / C1wStore. -/
theorem claim_C1_witness :
    (getCurrentUser C1wEnv C1wStore).result = .value (specResolve C1wEnv C1wStore) ∧
    specResolve C1wEnv C1wStore =
      some (mapPrincipal ⟨"u1", "x@y.com", some ["authenticated"], "aad", none⟩) :=
  ⟨claim_C1_cascade_priority C1wEnv C1wStore
    (by intro s hs hne; simp [C1wEnv]),
   by decide⟩

/-- C2: logout removes all five auth-related keys, leaves the onboarding
flag untouched, and a fresh resolution on the resulting store yields null
whenever the managed gateway has no principal, whatever provider was active
before. -/
theorem claim_C2_logout_totality (env : Env) (st : Store) (redirectPath : String) :
    ((logout env st redirectPath).1.cardea_auth_token = none ∧
     (logout env st redirectPath).1.cardea_user = none ∧
     (logout env st redirectPath).1.cardea_dev_auth = none ∧
     (logout env st redirectPath).1.cardea_dev_provider = none ∧
     (logout env st redirectPath).1.cardea_dev_user = none) ∧
    (logout env st redirectPath).1.cardea_onboarding_done = st.cardea_onboarding_done ∧
    ∀ env2 : Env, (∀ p, env2.managed ≠ .okPrincipal p) →
      (getCurrentUser env2 (logout env st redirectPath).1).result = .value none := by
  refine ⟨⟨rfl, rfl, rfl, rfl, rfl⟩, rfl, ?_⟩
  intro env2 hnop
  exact resolve_cleared env2 st hnop

/-- C2 witness: the concrete logout from a local-credential session on a
managed hostname, after which resolution with an empty who-am-I yields null
while the onboarding flag is untouched. -/
theorem claim_C2_witness :
    (getCurrentUser C2wEnv (logout C2wEnv C2wStore "/login").1).result = .value none ∧
    (logout C2wEnv C2wStore "/login").1.cardea_onboarding_done =
      C2wStore.cardea_onboarding_done :=
  ⟨(claim_C2_logout_totality C2wEnv C2wStore "/login").2.2 C2wEnv
    (by intro p h; simp [C2wEnv] at h),
   (claim_C2_logout_totality C2wEnv C2wStore "/login").2.1⟩

/-- C3 counterexample: the claim ties the managed-gateway redirect to the
current identity's provider and promises no navigation otherwise; the code
branches on the hostname instead, and navigates in both branches.  On the
managed hostname of C3xEnv the resolved identity is a local-credential one,
yet logout performs the managed redirect; and on a plain localhost, logout
navigates to the redirect path rather than clearing without navigation. -/
theorem claim_C3_counterexample :
    ((getCurrentUser C3xEnv C3xStore).result =
       .value (some (localIdentity localUserRec)) ∧
     (localIdentity localUserRec).identityProvider = "local" ∧
     (logout C3xEnv C3xStore "/login").2 = .managedLogoutRedirect "/login") ∧
    (logout C3wEnv C3xStore "/login").2 = .navigate "/login" := by
  refine ⟨⟨?_, rfl, ?_⟩, ?_⟩ <;> decide

/-- C3 amended: logout always clears all five credential keys (so a later
resolution with no managed principal yields null, whatever provider was
active), performs the managed-gateway redirect logout exactly when the
hostname indicates managed hosting — independently of the current
identity's provider — and otherwise clears and navigates locally to the
redirect path. -/
theorem claim_C3_amended (env : Env) (st : Store) (path : String) :
    ((logout env st path).2 = .managedLogoutRedirect path ↔
       isAzureHosted env.windowDefined env.hostname = true) ∧
    (isAzureHosted env.windowDefined env.hostname = false →
       (logout env st path).2 = .navigate path) ∧
    ∀ env2 : Env, (∀ p, env2.managed ≠ .okPrincipal p) →
      (getCurrentUser env2 (logout env st path).1).result = .value none := by
  refine ⟨?_, ?_, fun env2 h => resolve_cleared env2 st h⟩
  · unfold logout
    by_cases hA : isAzureHosted env.windowDefined env.hostname <;> simp [hA]
  · intro hA
    unfold logout
    simp [hA]

/-- C3 amended witness: on localhost the logout navigates locally and a
later resolution yields null. -/
theorem claim_C3_witness :
    (logout C3wEnv Store.empty "/login").2 = .navigate "/login" ∧
    (getCurrentUser C3wEnv (logout C3wEnv Store.empty "/login").1).result = .value none :=
  ⟨(claim_C3_amended C3wEnv Store.empty "/login").2.1 (by decide),
   (claim_C3_amended C3wEnv Store.empty "/login").2.2 C3wEnv
     (by intro p h; simp [C3wEnv] at h)⟩

/-- C4 counterexample: with the user-record key holding the empty string —
a value JSON.parse throws on, hence malformed — and a bearer token present
on a non-managed hostname, getCurrentUser does not clear the two keys (the
truthiness guard skips the whole block), refuting the claim's universally
quantified clearing. -/
theorem claim_C4_counterexample :
    C4xEnv.parseUser "" = none ∧
    C4xStore.cardea_auth_token = some "abc" ∧
    C4xStore.cardea_user = some "" ∧
    getCurrentUser C4xEnv C4xStore = ⟨.value none, C4xStore, false, true⟩ ∧
    (getCurrentUser C4xEnv C4xStore).store.cardea_user = some "" := by
  refine ⟨rfl, rfl, rfl, ?_, ?_⟩ <;> decide

/-- C4 amended: when the stored user record is a non-empty malformed value
and the bearer token is truthy, with no managed principal available,
getCurrentUser clears exactly the two local-credential keys and continues
to the developer-bypass step on the cleared store (and throws only if that
step then meets a malformed simulated-user record); when the malformed
value is the empty string the guard fails and the keys are left in place. -/
theorem claim_C4_amended (env : Env) (st : Store) (s : String)
    (htok : isTruthyStr st.cardea_auth_token = true)
    (hus : st.cardea_user = some s) (hne : s ≠ "")
    (hbad : env.parseUser s = none)
    (hnop : ∀ p, env.managed ≠ .okPrincipal p) :
    getCurrentUser env st =
      step3Dev env (clearLocalCreds st) (isAzureHosted env.windowDefined env.hostname) ∧
    (clearLocalCreds st).cardea_auth_token = none ∧
    (clearLocalCreds st).cardea_user = none := by
  refine ⟨?_, rfl, rfl⟩
  have hg : (isTruthyStr st.cardea_auth_token && isTruthyStr st.cardea_user) = true := by
    rw [hus, htok]
    simp [isTruthyStr, hne]
  have hgetd : st.cardea_user.getD "" = s := by simp [hus]
  unfold getCurrentUser step2Local
  by_cases hA : isAzureHosted env.windowDefined env.hostname
  · simp only [hA, if_true]
    cases hm : env.managed with
    | okPrincipal p => exact absurd hm (hnop p)
    | netError => simp [hg, hgetd, hbad]
    | notOk => simp [hg, hgetd, hbad]
    | okNoPrincipal => simp [hg, hgetd, hbad]
  · simp only [hA, if_false, Bool.false_eq_true]
    simp [hg, hgetd, hbad]

/-- C4 amended witness: the concrete malformed non-empty record is cleared
and resolution continues to the developer-bypass step. -/
theorem claim_C4_witness :
    getCurrentUser C4wEnv C4wStore =
      step3Dev C4wEnv (clearLocalCreds C4wStore)
        (isAzureHosted C4wEnv.windowDefined C4wEnv.hostname) ∧
    (clearLocalCreds C4wStore).cardea_auth_token = none ∧
    (clearLocalCreds C4wStore).cardea_user = none :=
  claim_C4_amended C4wEnv C4wStore "not-json" (by decide) rfl (by decide) rfl
    (by intro p h; simp [C4wEnv] at h)

/-- C5 counterexample: passive resolution can throw.  With the developer
bypass armed and a malformed simulated-user record on a non-managed
hostname, step 3's unguarded JSON.parse raises, so getCurrentUser ends in a
thrown error rather than an identity or null — refuting the claim's
"errors in any source are swallowed". -/
theorem claim_C5_counterexample :
    (getCurrentUser C5xEnv C5xStore).result = .thrown := by decide

/-- C5 amended: passive resolution never throws — the managed who-am-I
failure and a malformed local user record are swallowed per source and only
cause fall-through — provided any stored developer-bypass simulated-user
record is well formed; a malformed one is the single uncaught throw site. -/
theorem claim_C5_amended (env : Env) (st : Store)
    (hdev : ∀ s, st.cardea_dev_user = some s → s ≠ "" → (env.parseDevUser s).isSome) :
    ∃ o, (getCurrentUser env st).result = .value o :=
  ⟨specResolve env st, getCurrentUser_result_eq_spec env st hdev⟩

/-- C5 amended witness: with a well-formed dev record the dev-bypass path
resolves without a throw. -/
theorem claim_C5_witness :
    ∃ o, (getCurrentUser C5wEnv C5wStore).result = .value o :=
  claim_C5_amended C5wEnv C5wStore (by intro s hs hne; simp [C5wEnv])

/-- C6 counterexample: the AuthContext's login persists the record under the
user and access_token keys, but getCurrentUser reads cardea_user and
cardea_auth_token — so starting from an empty store, a successful login is
followed by a resolution pass that returns null, not a local-credential
identity with the stored id. -/
theorem claim_C6_counterexample :
    (login C6xResp Store.empty).1 = .success ⟨"1", "a@b.com", "A B", "traditional"⟩ ∧
    (getCurrentUser C6xEnv (login C6xResp Store.empty).2).result = .value none := by
  refine ⟨?_, ?_⟩ <;> decide

/-- C6 amended: the record a successful login persists is read back not by
getCurrentUser but by the AuthContext's own session check: for every
successful backend response with a non-empty token, checkExistingSession on
the post-login store returns the stored user, whose id equals the id of the
backend's user record; the cardea keys getCurrentUser reads are untouched
by the login. -/
theorem claim_C6_amended (tok : String) (r : BackendUserRec) (st : Store)
    (msal : Option (List MsalAccount)) (htok : tok ≠ "") :
    ∃ u : CtxUser,
      (login (.ok tok r) st).1 = .success u ∧
      u.id = r.id ∧
      checkExistingSession msal (login (.ok tok r) st).2 = some u ∧
      (login (.ok tok r) st).2.cardea_auth_token = st.cardea_auth_token ∧
      (login (.ok tok r) st).2.cardea_user = st.cardea_user := by
  refine ⟨⟨r.id, r.email, jsOrD r.full_name r.email, "traditional"⟩, rfl, rfl, ?_, rfl, rfl⟩
  unfold checkExistingSession login
  simp [isTruthyStr, htok]

/-- C6 amended witness: the concrete login round-trips through
checkExistingSession with the same id. -/
theorem claim_C6_witness :
    ∃ u : CtxUser,
      (login (.ok "tok" ⟨"1", "a@b.com", some "A B"⟩) Store.empty).1 = .success u ∧
      u.id = "1" ∧
      checkExistingSession none
        (login (.ok "tok" ⟨"1", "a@b.com", some "A B"⟩) Store.empty).2 = some u ∧
      (login (.ok "tok" ⟨"1", "a@b.com", some "A B"⟩) Store.empty).2.cardea_auth_token =
        Store.empty.cardea_auth_token ∧
      (login (.ok "tok" ⟨"1", "a@b.com", some "A B"⟩) Store.empty).2.cardea_user =
        Store.empty.cardea_user :=
  claim_C6_amended "tok" ⟨"1", "a@b.com", some "A B"⟩ Store.empty none (by decide)

/-- C7: when the MSAL library failed to initialise, the module-level
instance is null (the constructor's throw is caught, not propagated) and any
popup login attempt against it fails immediately without a popup and without
touching the store; and when the popup succeeds but the backend rejects the
identity token, the login fails with the backend's message and persists
neither user state nor a bearer token. -/
theorem claim_C7_popup_login_failures :
    (∀ (popup : PopupOutcome) (exch : ExchangeResp) (st : Store),
       loginWithMicrosoft (initMsal true .throws) popup exch st =
         ⟨.notConfiguredError, st, false⟩) ∧
    initMsal true .throws = none ∧
    (∀ (r : PopupResult) (d : Option String) (st : Store),
       loginWithMicrosoft (some ()) (.ok r) (.notOk d) st =
         ⟨.backendRejected (jsOrD d "Backend authentication failed"), st, true⟩) :=
  ⟨fun _ _ _ => rfl, rfl, fun _ _ _ => rfl⟩

/-- C8: with bearer token abc and the concrete user record stored on a
non-managed hostname (where JSON.parse yields the record's fields),
getCurrentUser returns the local identity with subjectId 1, provider local,
roles exactly authenticated, and getDisplayName resolves to A B. -/
theorem claim_C8_concrete_local_scenario (env : Env) (st : Store)
    (hhost : isAzureHosted env.windowDefined env.hostname = false)
    (hparse : env.parseUser localUserJson = some localUserRec)
    (htok : st.cardea_auth_token = some "abc")
    (hus : st.cardea_user = some localUserJson) :
    (getCurrentUser env st).result =
      .value (some ⟨"1", some "a@b.com", ["authenticated"], "local",
                    some [("name", "A B")]⟩) ∧
    getDisplayName
      (some ⟨"1", some "a@b.com", ["authenticated"], "local",
             some [("name", "A B")]⟩) = "A B" := by
  constructor
  · unfold getCurrentUser step2Local
    simp only [hhost, Bool.false_eq_true, if_false, htok, hus]
    have hne : localUserJson ≠ "" := by decide
    have hloc : localIdentity localUserRec =
        ⟨"1", some "a@b.com", ["authenticated"], "local", some [("name", "A B")]⟩ := by
      decide
    simp [isTruthyStr, hne, hparse, hloc]
  · decide

/-- C8 witness: the concrete environment and store of the scenario. -/
theorem claim_C8_witness :
    (getCurrentUser C8wEnv C8wStore).result =
      .value (some ⟨"1", some "a@b.com", ["authenticated"], "local",
                    some [("name", "A B")]⟩) ∧
    getDisplayName
      (some ⟨"1", some "a@b.com", ["authenticated"], "local",
             some [("name", "A B")]⟩) = "A B" :=
  claim_C8_concrete_local_scenario C8wEnv C8wStore (by decide) (by decide) rfl rfl

/-- C9: pasting the six digits 123456 as one block into the OTP input
overwrites all six slots, one digit each, leaving no slot empty, for
whatever the slots held before; and Backspace on an empty slot with a
predecessor moves focus to that predecessor. -/
theorem claim_C9_otp_handlers :
    (∀ otp : List String, otp.length = 6 →
       handleOtpPaste otp "123456" = ["1", "2", "3", "4", "5", "6"] ∧
       ∀ s ∈ handleOtpPaste otp "123456", s ≠ "") ∧
    (∀ (otp : List String) (i : Nat), 0 < i → otp.getD i "" = "" →
       handleOtpKeyDown otp i "Backspace" = some (i - 1)) := by
  constructor
  · intro otp h
    rcases otp with _ | ⟨a, _ | ⟨b, _ | ⟨c, _ | ⟨d, _ | ⟨e, _ | ⟨f, _ | ⟨g, t⟩⟩⟩⟩⟩⟩⟩
    · simp at h
    · simp at h
    · simp at h
    · simp at h
    · simp at h
    · simp at h
    · exact ⟨rfl, by show ∀ s ∈ (["1", "2", "3", "4", "5", "6"] : List String), s ≠ ""; decide⟩
    · simp at h
  · intro otp i hi he
    unfold handleOtpKeyDown
    rw [if_pos ⟨rfl, he, hi⟩]

/-- C9 witness: the paste into empty slots and a Backspace on empty slot 1. -/
theorem claim_C9_witness :
    handleOtpPaste ["", "", "", "", "", ""] "123456" = ["1", "2", "3", "4", "5", "6"] ∧
    handleOtpKeyDown ["1", "", "", "", "", ""] 1 "Backspace" = some 0 :=
  ⟨(claim_C9_otp_handlers.1 ["", "", "", "", "", ""] (by decide)).1,
   claim_C9_otp_handlers.2 ["1", "", "", "", "", ""] 1 (by decide) (by decide)⟩

/-- C10: isAzureHosted holds exactly when the hostname contains
azurestaticapps.net, contains cardea, or ends with .azurewebsites.net; and
on any hostname merely containing cardea the resolver queries the managed
who-am-I endpoint and never reads the developer-bypass keys. -/
theorem claim_C10_hosting_test :
    (∀ h : String, isAzureHosted true h = true ↔
       ("azurestaticapps.net".toList <:+: h.toList ∨
        "cardea".toList <:+: h.toList ∨
        ".azurewebsites.net".toList <:+ h.toList)) ∧
    (∀ (env : Env) (st : Store), env.windowDefined = true →
       "cardea".toList <:+: env.hostname.toList →
       (getCurrentUser env st).fetchedManaged = true ∧
       (getCurrentUser env st).checkedDevBypass = false) := by
  refine ⟨isAzureHosted_eq_true_iff, ?_⟩
  intro env st hw hc
  have hA : isAzureHosted env.windowDefined env.hostname = true := by
    rw [hw]
    exact (isAzureHosted_eq_true_iff env.hostname).mpr (Or.inr (Or.inl hc))
  unfold getCurrentUser
  simp only [hA, if_true]
  cases env.managed with
  | okPrincipal p => exact ⟨rfl, rfl⟩
  | netError => exact ⟨step2Local_fetched env st true, step2Local_checkedDev env st true hA⟩
  | notOk => exact ⟨step2Local_fetched env st true, step2Local_checkedDev env st true hA⟩
  | okNoPrincipal =>
    exact ⟨step2Local_fetched env st true, step2Local_checkedDev env st true hA⟩

/-- C10 witness: a local-development hostname containing cardea is treated
as managed hosting — the who-am-I endpoint is queried and the bypass keys
are never read. -/
theorem claim_C10_witness :
    isAzureHosted true "cardea.localdev" = true ∧
    (getCurrentUser C10wEnv Store.empty).fetchedManaged = true ∧
    (getCurrentUser C10wEnv Store.empty).checkedDevBypass = false :=
  ⟨(claim_C10_hosting_test.1 "cardea.localdev").mpr (Or.inr (Or.inl (by decide))),
   (claim_C10_hosting_test.2 C10wEnv Store.empty rfl (by decide)).1,
   (claim_C10_hosting_test.2 C10wEnv Store.empty rfl (by decide)).2⟩
